import Mathlib

/-!
Verification of the YTMusic recommender Appwrite function (src/main.py).

The function `main(context)` parses a JSON payload, resolves a user id,
fetches stored YouTube Music auth headers from the Appwrite preferences
store, constructs a YTMusic client from them, and dispatches one of four
actions.  We embed the body of `main` from line 57 on (the point where the
payload has been successfully parsed by `json.loads`): the modeled input is
the parsed payload as a JSON value, and all external calls (the Appwrite
preferences fetch, `json.loads` on the stored header blob, YTMusic
construction and YTMusic method calls) are oracles collected in a `World`
record.  The result is the structured response (or an uncaught Python
exception) together with the ordered list of external effects performed.
-/

namespace YTM

/-- JSON values as produced by Python's json.loads. -/
inductive JValue where
  | null
  | bool (b : Bool)
  | num (n : Int)
  | str (s : String)
  | arr (xs : List JValue)
  | obj (fields : List (String × JValue))

/-- Python truthiness of a JSON value (used by `if x:` checks in main.py). -/
def truthy : JValue → Bool
  | .null => false
  | .bool b => b
  | .num n => n != 0
  | .str s => s != ""
  | .arr xs => !xs.isEmpty
  | .obj fs => !fs.isEmpty

/-- Python `==` comparison of a JSON value against a string literal
(e.g. `action == "test_connection"` at main.py:77); only an equal string
compares equal. -/
def pyEqStr : JValue → String → Bool
  | .str s, t => s == t
  | _, _ => false

/-- Python type name of a JSON value, as it appears in error messages. -/
def pyTypeName : JValue → String
  | .null => "NoneType"
  | .bool _ => "bool"
  | .num _ => "int"
  | .str _ => "str"
  | .arr _ => "list"
  | .obj _ => "dict"

/-- Python `str()` of a JSON value, used by f-string interpolation in the
error messages of main.py.  Scalar values are rendered exactly; the
rendering of composite values (which Python would show as list/dict reprs)
is abbreviated, since no code path in the claims interpolates one. -/
def pyStr : JValue → String
  | .null => "None"
  | .bool true => "True"
  | .bool false => "False"
  | .num n => toString n
  | .str s => s
  | .arr _ => "[...]"
  | .obj _ => "\x7b...\x7d"

/-- Whether a JSON value is a Python dict (JSON object). -/
def isDict : JValue → Bool
  | .obj _ => true
  | _ => false

/-- main.py:26 -/
def YT_HEADERS_PREF_KEY : String := "ytmusic_headers"

/-- Whether `needle` occurs at the start of a character list. -/
def startsWithL : List Char → List Char → Bool
  | [], _ => true
  | _ :: _, [] => false
  | a :: as, b :: bs => a == b && startsWithL as bs

/-- Whether `needle` occurs somewhere inside a character list. -/
def hasSubL (needle : List Char) : List Char → Bool
  | [] => needle.isEmpty
  | b :: bs => startsWithL needle (b :: bs) || hasSubL needle bs

/-- Whether `needle` is a substring of `hay` (Python `needle in hay` on
strings). -/
def containsS (hay needle : String) : Bool := hasSubL needle.data hay.data

/-- Python membership test `"Cookie" in headers` (main.py:147), where
`headers` is the result of json.loads on the stored blob: key membership
for a dict, element equality for a list, substring test for a string, and
a TypeError for non-iterable values (caught by the enclosing
`except Exception` handler at main.py:158). -/
def pyContains (v : JValue) (k : String) : Except String Bool :=
  match v with
  | .obj fs => .ok (fs.lookup k).isSome
  | .arr xs => .ok (xs.any fun x => pyEqStr x k)
  | .str s => .ok (containsS s k)
  | .null => .error "TypeError: argument of type \x27NoneType\x27 is not iterable"
  | .bool _ => .error "TypeError: argument of type \x27bool\x27 is not iterable"
  | .num _ => .error "TypeError: argument of type \x27int\x27 is not iterable"

/-- Failure modes of `users.get_prefs` (main.py:120-125): a typed
AppwriteException carrying a message and an HTTP code, or any other
exception. -/
inductive PrefsError where
  | appwrite (message : String) (code : Int)
  | other (message : String)

/-- The ambient environment and the behaviour of every external call made
by main.py: the `APPWRITE_FUNCTION_USER_ID` environment variable, the
Appwrite `users.get_prefs` fetch (returning the per-user preference dict),
Python's `json.loads` applied to the stored header blob, the
`YTMusic(auth=headers)` constructor, and the YTMusic client methods
(keyed by method name and `limit` argument, returning a list of entries
or raising). -/
structure World where
  envUserId : Option String
  getPrefs : JValue → Except PrefsError (List (String × JValue))
  jsonLoads : String → Except String JValue
  ytInit : JValue → Except String Unit
  ytCall : String → Nat → Except String (List JValue)
  sysVersion : String

/-- One structured response produced via `context.res.json(body, status)`;
`status` defaults to 200 when main.py omits it.  Optional fields are the
keys main.py actually puts in response bodies. -/
structure Response where
  status : Int := 200
  success : Bool
  data : Option JValue := none
  error : Option String := none
  code : Option String := none
  message : Option String := none
  requires_setup : Option Bool := none
  headers_found : Option Bool := none
  python_version : Option String := none

/-- Either a structured response returned by main, or a Python exception
propagating raw out of the function. -/
inductive Outcome where
  | response (r : Response)
  | uncaught (exc : String)

/-- External effects performed during a run, in order: a preferences
fetch, a YTMusic client construction, or a YTMusic method call. -/
inductive Eff where
  | getPrefs (userId : JValue)
  | ytInit (headers : JValue)
  | ytCall (method : String) (limit : Nat)

/-- main.py:64-65: `user_id = payload.get('user_id', env_user_id)` where
`env_user_id = os.environ.get('APPWRITE_FUNCTION_USER_ID')`. -/
def resolveUserId (fs : List (String × JValue)) (env : Option String) : JValue :=
  match fs.lookup "user_id" with
  | some v => v
  | none =>
    match env with
    | some s => .str s
    | none => .null

/-- main.py:165-216, the action dispatch.  Each branch calls the client
with its fixed limit; an exception from a fetch is caught by the outer
handler at main.py:210 (message interpolating the action name and the
exception), except inside `test_connection`, whose inner handler at
main.py:196-204 catches everything first and returns 401. -/
def dispatchAction (w : World) (action : JValue) : Outcome × List Eff :=
  if pyEqStr action "get_library_playlists" then
    match w.ytCall "get_library_playlists" 50 with
    | .ok playlists =>
      (.response { success := true, data := some (.arr playlists) },
       [.ytCall "get_library_playlists" 50])
    | .error e =>
      (.response
         { status := 500, success := false,
           error := some ("API call failed for action \x27" ++ pyStr action ++ "\x27: " ++ e) },
       [.ytCall "get_library_playlists" 50])
  else if pyEqStr action "get_home" then
    match w.ytCall "get_home" 20 with
    | .ok home_feed =>
      (.response { success := true, data := some (.arr home_feed) },
       [.ytCall "get_home" 20])
    | .error e =>
      (.response
         { status := 500, success := false,
           error := some ("API call failed for action \x27" ++ pyStr action ++ "\x27: " ++ e) },
       [.ytCall "get_home" 20])
  else if pyEqStr action "get_recommendations" then
    match w.ytCall "get_recommendations" 20 with
    | .ok recommendations =>
      (.response { success := true, data := some (.arr recommendations) },
       [.ytCall "get_recommendations" 20])
    | .error e =>
      (.response
         { status := 500, success := false,
           error := some ("API call failed for action \x27" ++ pyStr action ++ "\x27: " ++ e) },
       [.ytCall "get_recommendations" 20])
  else if pyEqStr action "test_connection" then
    match w.ytCall "get_library_playlists" 1 with
    | .ok _ =>
      (.response
         { success := true,
           message := some "Connection and authentication test successful.",
           headers_found := some true,
           python_version := some w.sysVersion },
       [.ytCall "get_library_playlists" 1])
    | .error e =>
      (.response
         { status := 401, success := false,
           error := some ("Authentication test failed during API call: " ++ e),
           code := some "YT_API_ERROR" },
       [.ytCall "get_library_playlists" 1])
  else
    (.response
         { status := 400, success := false,
           error := some ("Unknown action: " ++ pyStr action) }, [])

/-- main.py:143-160 followed by the dispatch: deserialize the stored
header blob, check for the `Cookie` entry, construct the YTMusic client,
then dispatch.  When `json.loads` raises JSONDecodeError, the handler at
main.py:154-157 runs `context.error(f"... \x7be\x7d")` at line 155 — but that
`except` clause lacks `as e`, so `e` is an unbound local there and the
f-string raises UnboundLocalError, which propagates raw out of the
function (the intended 400 return at line 157 is unreachable).  A
non-string blob makes `json.loads` raise TypeError, caught by the
`except Exception` handler at line 158 (500).  After the Cookie check the
log at line 151 calls `headers.keys()`, which raises AttributeError on a
non-dict parse result, again caught at line 158. -/
def initAndDispatch (w : World) (action : JValue) (auth_headers_str : JValue) :
    Outcome × List Eff :=
  match auth_headers_str with
  | .str s =>
    match w.jsonLoads s with
    | .error _ =>
      (.uncaught "UnboundLocalError: local variable \x27e\x27 referenced before assignment",
       [])
    | .ok headers =>
      match pyContains headers "Cookie" with
      | .error te =>
        (.response
         { status := 500, success := false,
           error := some ("YouTube Music initialization failed: " ++ te) }, [])
      | .ok false =>
        (.response
         { status := 400, success := false,
           error := some "Invalid YouTube Music configuration (Missing Cookie). Please re-configure." },
         [])
      | .ok true =>
        match headers with
        | .obj hs =>
          match w.ytInit (.obj hs) with
          | .error e =>
            (.response
         { status := 500, success := false,
               error := some ("YouTube Music initialization failed: " ++ e) },
             [.ytInit (.obj hs)])
          | .ok _ =>
            let r := dispatchAction w action
            (r.fst, .ytInit (.obj hs) :: r.snd)
        | _ =>
          (.response
         { status := 500, success := false,
             error := some ("YouTube Music initialization failed: AttributeError: \x27"
               ++ pyTypeName headers ++ "\x27 object has no attribute \x27keys\x27") },
           [])
  | v =>
    (.response
         { status := 500, success := false,
           error := some ("YouTube Music initialization failed: TypeError: the JSON object must be str, bytes or bytearray, not "
           ++ pyTypeName v) }, [])

/-- main.py:85-139: validate that `action` is present, then (line 94)
reset `auth_headers_str` to None — which makes the `if auth_headers_str:`
branch at line 97 unreachable — and resolve credentials: from the
preferences store when a user id is available (on a missing/falsy stored
value: 400 `YT_SETUP_REQUIRED`; on AppwriteException: the exception's
code if at least 400, else 500; on any other exception: 500), else the
`test_connection` shortcut, else 400 `YT_SETUP_REQUIRED`. -/
def afterIdentity (w : World) (user_id action : JValue) : Outcome × List Eff :=
  if !truthy action then
    (.response
         { status := 400, success := false,
           error := some "Missing \x27action\x27 parameter in request" }, [])
  else
    let auth_headers_str := JValue.null
    if truthy auth_headers_str then
      initAndDispatch w action auth_headers_str
    else if truthy user_id then
      match w.getPrefs user_id with
      | .error (.appwrite msg code) =>
        (.response
         { status := if code ≥ 400 then code else 500, success := false,
           error := some ("Could not retrieve user settings: " ++ msg) },
         [.getPrefs user_id])
      | .error (.other _) =>
        (.response
         { status := 500, success := false,
           error := some "Internal server error (Prefs fetch)" },
         [.getPrefs user_id])
      | .ok user_prefs =>
        let blob := (user_prefs.lookup YT_HEADERS_PREF_KEY).getD JValue.null
        if !truthy blob then
          (.response
         { status := 400, success := false,
             error := some "YouTube Music not configured. Please set up in app settings.",
             code := some "YT_SETUP_REQUIRED" },
           [.getPrefs user_id])
        else
          let r := initAndDispatch w action blob
          (r.fst, .getPrefs user_id :: r.snd)
    else if pyEqStr action "test_connection" then
      (.response
         { success := true,
           message := some "Connection successful but no auth headers available",
           requires_setup := some true }, [])
    else
      (.response
         { status := 400, success := false,
           error := some "YouTube Music not configured. No authentication headers available.",
           code := some "YT_SETUP_REQUIRED" }, [])

/-- The body of main.py from line 57 on, applied to a successfully parsed
payload (the json.loads try/except at lines 44-54 is upstream of the
modeled inputs).  A non-dict payload makes `payload.get('auth_headers')`
at line 57 — which sits outside every try block — raise AttributeError,
propagating raw.  For a dict payload: extract `auth_headers`, resolve
`user_id`, extract `action`; the identity gate at lines 77-82 is skipped
for `test_connection` and returns 401 when both the payload
`auth_headers` and the user id are falsy. -/
def main (w : World) (payload : JValue) : Outcome × List Eff :=
  match payload with
  | .obj fs =>
    let auth_headers_str := (fs.lookup "auth_headers").getD JValue.null
    let user_id := resolveUserId fs w.envUserId
    let action := (fs.lookup "action").getD JValue.null
    if pyEqStr action "test_connection" then
      afterIdentity w user_id action
    else if !truthy auth_headers_str && !truthy user_id then
      (.response
         { status := 401, success := false,
           error := some "User authentication required" }, [])
    else
      afterIdentity w user_id action
  | v =>
    (.uncaught ("AttributeError: \x27" ++ pyTypeName v
       ++ "\x27 object has no attribute \x27get\x27"), [])

/-- Status of an outcome (−1 for an uncaught exception, which carries no
status at all). -/
def respStatus : Outcome → Int
  | .response r => r.status
  | .uncaught _ => -1

/-- The `data` field of an outcome. -/
def respData : Outcome → Option JValue
  | .response r => r.data
  | .uncaught _ => none

/-- The response main.py:120-125 produces when the preferences fetch
raises: the AppwriteException's code when it is at least 400, otherwise
500. -/
def prefsErrResp : PrefsError → Response
  | .appwrite msg code =>
    { status := if code ≥ 400 then code else 500, success := false,
      error := some ("Could not retrieve user settings: " ++ msg) }
  | .other _ =>
    { status := 500, success := false,
      error := some "Internal server error (Prefs fetch)" }

/-- The missing-action response of main.py:87. -/
def missingActionResp : Response :=
  { status := 400, success := false,
    error := some "Missing \x27action\x27 parameter in request" }

/-- A base environment: no ambient user id, a preferences store whose
fetch raises a generic exception, a `json.loads` that raises
JSONDecodeError, and a client whose calls raise. -/
def w0 : World :=
  { envUserId := none,
    getPrefs := fun _ => .error (.other "connection refused"),
    jsonLoads := fun _ => .error "Expecting value: line 1 column 1 (char 0)",
    ytInit := fun _ => .ok (),
    ytCall := fun _ _ => .error "HTTP 401",
    sysVersion := "3.11.0" }

/-- An environment whose preferences store holds a header blob that is
not valid JSON for every user. -/
def wBadBlob : World :=
  { w0 with getPrefs := fun _ => .ok [(YT_HEADERS_PREF_KEY, .str "not json")] }

/-- An environment with a well-formed stored blob (parsing to a dict with
a Cookie entry) whose client calls all raise "boom". -/
def wBoom : World :=
  { envUserId := none,
    getPrefs := fun _ => .ok [(YT_HEADERS_PREF_KEY, .str "hs")],
    jsonLoads := fun _ => .ok (.obj [("Cookie", .str "c=1")]),
    ytInit := fun _ => .ok (),
    ytCall := fun _ _ => .error "boom",
    sysVersion := "3.11.0" }

/-- An environment whose preferences fetch raises an AppwriteException
with HTTP code 404 (e.g. user not found). -/
def w404 : World :=
  { w0 with getPrefs := fun _ => .error (.appwrite "User not found" 404) }

/-- An environment whose preferences store returns an empty preference
dict for every user. -/
def wEmptyPrefs : World :=
  { w0 with getPrefs := fun _ => .ok [] }

/-- An environment whose client calls all succeed, answering with a
one-element list naming the method called. -/
def wOk : World :=
  { wBoom with ytCall := fun m _ => .ok [.str m] }

/-- `String.append` appends the underlying character lists. -/
theorem strData_append (a b : String) : (a ++ b).data = a.data ++ b.data := by
  cases a; cases b; rfl

/-- `String` append is associative. -/
theorem strAppend_assoc (a b c : String) : a ++ b ++ c = a ++ (b ++ c) := by
  cases a; cases b; cases c
  exact congrArg String.mk (List.append_assoc ..)

/-- Claim C1 (status: code_bug).  The spec says a stored header blob that
is not valid JSON yields a structured 400 configuration-error response
and that no exception propagates raw out of steps 4-7.  The code clearly
intends this (main.py:157 returns exactly that 400), but the
`except json.JSONDecodeError:` clause at main.py:154 lacks `as e` while
the log call at line 155 interpolates `e`, so the handler raises
UnboundLocalError before reaching the return, and the exception
propagates raw.  This theorem evaluates the embedded code at the failing
input: user u1 whose stored `ytmusic_headers` blob is the invalid JSON
string "not json", requesting `get_home`. -/
theorem C1_bad_blob_uncaught :
    main wBadBlob (JValue.obj [("action", .str "get_home"), ("user_id", .str "u1")]) =
      (Outcome.uncaught "UnboundLocalError: local variable \x27e\x27 referenced before assignment",
       [Eff.getPrefs (JValue.str "u1")]) := rfl

/-- Claim C2 counterexample.  A payload lacking `action`, with no user
identity and no auth_headers, is answered by the identity gate at
main.py:80-82 with status 401 ("User authentication required"), not with
the 400 missing-action error the claim demands for every such request. -/
theorem C2_counterexample :
    (main w0 (JValue.obj [])).fst =
      Outcome.response
        { status := 401, success := false,
          error := some "User authentication required" } ∧
    respStatus (main w0 (JValue.obj [])).fst ≠ 400 :=
  ⟨rfl, by decide⟩

/-- Claim C2 (amended): a request whose payload lacks the `action` field
is answered with the 400 missing-action response provided a user identity
or truthy payload auth_headers is present; when both are absent the
identity gate at main.py:80-82 answers 401 first. -/
theorem C2_missing_action (w : World) (fs : List (String × JValue))
    (hact : fs.lookup "action" = none)
    (hid : truthy ((fs.lookup "auth_headers").getD JValue.null) = true ∨
      truthy (resolveUserId fs w.envUserId) = true) :
    (main w (JValue.obj fs)).fst = Outcome.response missingActionResp := by
  have h0 : truthy JValue.null = false := rfl
  rcases hid with h | h <;>
    simp [main, afterIdentity, hact, pyEqStr, missingActionResp, h0, h]

/-- Witness for C2 (amended): a payload with a user id and no action. -/
theorem C2_missing_action_witness :
    (main w0 (JValue.obj [("user_id", JValue.str "u7")])).fst =
      Outcome.response missingActionResp :=
  C2_missing_action w0 [("user_id", JValue.str "u7")] rfl (Or.inr rfl)

/-- Claim C10: a parsed payload that is valid JSON but not a JSON object
reaches `payload.get(\x27auth_headers\x27)` at main.py:57, which sits outside
every try block, so the AttributeError it raises propagates raw and the
function returns no structured response. -/
theorem C10_nondict_uncaught (w : World) (v : JValue)
    (h : isDict v = false) :
    main w v =
      (Outcome.uncaught ("AttributeError: \x27" ++ pyTypeName v
        ++ "\x27 object has no attribute \x27get\x27"), []) := by
  cases v
  · rfl
  · rfl
  · rfl
  · rfl
  · rfl
  · exact absurd h (by simp [isDict])

/-- Claim C3 counterexample.  For `test_connection`, an exception raised
by the client during the test call is caught by the inner handler at
main.py:196-204: the status is 401 (permitted by the claim), but the
error field ("Authentication test failed during API call: boom") does
not contain the action name `test_connection`, and the status is not
500 — so the claim as stated fails at this input (world `wBoom`, payload
action=test_connection, user_id=u1, exception text "boom"). -/
theorem C3_counterexample :
    (main wBoom (JValue.obj [("action", .str "test_connection"), ("user_id", .str "u1")])).fst =
      Outcome.response
        { status := 401, success := false,
          error := some "Authentication test failed during API call: boom",
          code := some "YT_API_ERROR" } ∧
    ¬ ∃ p q : String,
        "Authentication test failed during API call: boom" = p ++ "test_connection" ++ q := by
  refine ⟨rfl, ?_⟩
  rintro ⟨p, q, h⟩
  have hc := congrArg (fun s : String => s.data.count '_') h
  simp only [strData_append, List.count_append] at hc
  rw [show ("Authentication test failed during API call: boom" : String).data.count '_' = 0
        from by decide,
      show ("test_connection" : String).data.count '_' = 1 from by decide] at hc
  omega

/-- Claim C3 (amended): when the client call of a fetch action raises, the
three fetch actions answer 500 with an error containing the action name
and the exception text (main.py:210-216); `test_connection` answers 401
with code `YT_API_ERROR` and an error containing the exception text but
not the action name (main.py:196-204), and this for every exception, not
only authentication failures. -/
theorem C3_fetch_error_message (w : World) (e : String) :
    (w.ytCall "get_library_playlists" 50 = .error e →
      ∃ msg, (dispatchAction w (.str "get_library_playlists")).fst =
          Outcome.response { status := 500, success := false, error := some msg } ∧
        (∃ p q, msg = p ++ "get_library_playlists" ++ q) ∧ (∃ p, msg = p ++ e)) ∧
    (w.ytCall "get_home" 20 = .error e →
      ∃ msg, (dispatchAction w (.str "get_home")).fst =
          Outcome.response { status := 500, success := false, error := some msg } ∧
        (∃ p q, msg = p ++ "get_home" ++ q) ∧ (∃ p, msg = p ++ e)) ∧
    (w.ytCall "get_recommendations" 20 = .error e →
      ∃ msg, (dispatchAction w (.str "get_recommendations")).fst =
          Outcome.response { status := 500, success := false, error := some msg } ∧
        (∃ p q, msg = p ++ "get_recommendations" ++ q) ∧ (∃ p, msg = p ++ e)) ∧
    (w.ytCall "get_library_playlists" 1 = .error e →
      ∃ msg, (dispatchAction w (.str "test_connection")).fst =
          Outcome.response
            { status := 401, success := false, error := some msg,
              code := some "YT_API_ERROR" } ∧
        (∃ p, msg = p ++ e)) := by
  refine ⟨fun h => ?_, fun h => ?_, fun h => ?_, fun h => ?_⟩
  · have h1 : pyEqStr (JValue.str "get_library_playlists") "get_library_playlists" = true := rfl
    refine ⟨"API call failed for action \x27" ++ "get_library_playlists" ++ "\x27: " ++ e,
      by simp [dispatchAction, h1, h, pyStr],
      ⟨"API call failed for action \x27", "\x27: " ++ e, strAppend_assoc _ _ _⟩,
      ⟨"API call failed for action \x27" ++ "get_library_playlists" ++ "\x27: ", rfl⟩⟩
  · have h1 : pyEqStr (JValue.str "get_home") "get_library_playlists" = false := rfl
    have h2 : pyEqStr (JValue.str "get_home") "get_home" = true := rfl
    refine ⟨"API call failed for action \x27" ++ "get_home" ++ "\x27: " ++ e,
      by simp [dispatchAction, h1, h2, h, pyStr],
      ⟨"API call failed for action \x27", "\x27: " ++ e, strAppend_assoc _ _ _⟩,
      ⟨"API call failed for action \x27" ++ "get_home" ++ "\x27: ", rfl⟩⟩
  · have h1 : pyEqStr (JValue.str "get_recommendations") "get_library_playlists" = false := rfl
    have h2 : pyEqStr (JValue.str "get_recommendations") "get_home" = false := rfl
    have h3 : pyEqStr (JValue.str "get_recommendations") "get_recommendations" = true := rfl
    refine ⟨"API call failed for action \x27" ++ "get_recommendations" ++ "\x27: " ++ e,
      by simp [dispatchAction, h1, h2, h3, h, pyStr],
      ⟨"API call failed for action \x27", "\x27: " ++ e, strAppend_assoc _ _ _⟩,
      ⟨"API call failed for action \x27" ++ "get_recommendations" ++ "\x27: ", rfl⟩⟩
  · have h1 : pyEqStr (JValue.str "test_connection") "get_library_playlists" = false := rfl
    have h2 : pyEqStr (JValue.str "test_connection") "get_home" = false := rfl
    have h3 : pyEqStr (JValue.str "test_connection") "get_recommendations" = false := rfl
    have h4 : pyEqStr (JValue.str "test_connection") "test_connection" = true := rfl
    exact ⟨"Authentication test failed during API call: " ++ e,
      by simp [dispatchAction, h1, h2, h3, h4, h],
      ⟨"Authentication test failed during API call: ", rfl⟩⟩

/-- Witness for C3 (amended): the `get_home` conjunct in the world whose
client calls all raise "boom". -/
theorem C3_fetch_error_message_witness :
    ∃ msg, (dispatchAction wBoom (.str "get_home")).fst =
        Outcome.response { status := 500, success := false, error := some msg } ∧
      (∃ p q, msg = p ++ "get_home" ++ q) ∧ (∃ p, msg = p ++ "boom") :=
  (C3_fetch_error_message wBoom "boom").2.1 rfl

/-- Claim C8 counterexample.  `test_connection` does call the client with
limit 1, but when that call succeeds the client's result is discarded:
the success response built at main.py:190-195 carries no `data` field at
all, so the result is not "returned as the data of a success response"
as the claim states for each action. -/
theorem C8_counterexample :
    wOk.ytCall "get_library_playlists" 1 = Except.ok [JValue.str "get_library_playlists"] ∧
    (dispatchAction wOk (JValue.str "test_connection")).fst =
      Outcome.response
        { success := true,
          message := some "Connection and authentication test successful.",
          headers_found := some true,
          python_version := some "3.11.0" } ∧
    respData (dispatchAction wOk (JValue.str "test_connection")).fst = none ∧
    (none : Option JValue) ≠ some (JValue.arr [JValue.str "get_library_playlists"]) :=
  ⟨rfl, rfl, rfl, fun hh => Option.noConfusion hh⟩

/-- Claim C8 (amended): each action calls the client with its fixed limit
(`get_library_playlists` 50, `get_home` 20, `get_recommendations` 20,
`test_connection` 1); the three fetch actions return the client's result
as the data of a success response, while `test_connection` discards the
fetched list and returns a success message with `headers_found` true. -/
theorem C8_dispatch_limits (w : World) :
    (∀ r, w.ytCall "get_library_playlists" 50 = Except.ok r →
      dispatchAction w (JValue.str "get_library_playlists") =
        (Outcome.response { success := true, data := some (JValue.arr r) },
         [Eff.ytCall "get_library_playlists" 50])) ∧
    (∀ r, w.ytCall "get_home" 20 = Except.ok r →
      dispatchAction w (JValue.str "get_home") =
        (Outcome.response { success := true, data := some (JValue.arr r) },
         [Eff.ytCall "get_home" 20])) ∧
    (∀ r, w.ytCall "get_recommendations" 20 = Except.ok r →
      dispatchAction w (JValue.str "get_recommendations") =
        (Outcome.response { success := true, data := some (JValue.arr r) },
         [Eff.ytCall "get_recommendations" 20])) ∧
    (∀ r, w.ytCall "get_library_playlists" 1 = Except.ok r →
      dispatchAction w (JValue.str "test_connection") =
        (Outcome.response
          { success := true,
            message := some "Connection and authentication test successful.",
            headers_found := some true,
            python_version := some w.sysVersion },
         [Eff.ytCall "get_library_playlists" 1])) := by
  refine ⟨fun r h => ?_, fun r h => ?_, fun r h => ?_, fun r h => ?_⟩
  · have h1 : pyEqStr (JValue.str "get_library_playlists") "get_library_playlists" = true := rfl
    simp [dispatchAction, h1, h]
  · have h1 : pyEqStr (JValue.str "get_home") "get_library_playlists" = false := rfl
    have h2 : pyEqStr (JValue.str "get_home") "get_home" = true := rfl
    simp [dispatchAction, h1, h2, h]
  · have h1 : pyEqStr (JValue.str "get_recommendations") "get_library_playlists" = false := rfl
    have h2 : pyEqStr (JValue.str "get_recommendations") "get_home" = false := rfl
    have h3 : pyEqStr (JValue.str "get_recommendations") "get_recommendations" = true := rfl
    simp [dispatchAction, h1, h2, h3, h]
  · have h1 : pyEqStr (JValue.str "test_connection") "get_library_playlists" = false := rfl
    have h2 : pyEqStr (JValue.str "test_connection") "get_home" = false := rfl
    have h3 : pyEqStr (JValue.str "test_connection") "get_recommendations" = false := rfl
    have h4 : pyEqStr (JValue.str "test_connection") "test_connection" = true := rfl
    simp [dispatchAction, h1, h2, h3, h4, h]

/-- Witness for C8 (amended): all four actions in the world whose client
answers every call with a one-element list naming the method. -/
theorem C8_dispatch_limits_witness :
    dispatchAction wOk (JValue.str "get_library_playlists") =
      (Outcome.response
        { success := true, data := some (JValue.arr [JValue.str "get_library_playlists"]) },
       [Eff.ytCall "get_library_playlists" 50]) ∧
    dispatchAction wOk (JValue.str "get_home") =
      (Outcome.response
        { success := true, data := some (JValue.arr [JValue.str "get_home"]) },
       [Eff.ytCall "get_home" 20]) ∧
    dispatchAction wOk (JValue.str "get_recommendations") =
      (Outcome.response
        { success := true, data := some (JValue.arr [JValue.str "get_recommendations"]) },
       [Eff.ytCall "get_recommendations" 20]) ∧
    dispatchAction wOk (JValue.str "test_connection") =
      (Outcome.response
        { success := true,
          message := some "Connection and authentication test successful.",
          headers_found := some true,
          python_version := some "3.11.0" },
       [Eff.ytCall "get_library_playlists" 1]) :=
  ⟨(C8_dispatch_limits wOk).1 _ rfl, (C8_dispatch_limits wOk).2.1 _ rfl,
   (C8_dispatch_limits wOk).2.2.1 _ rfl, (C8_dispatch_limits wOk).2.2.2 _ rfl⟩

/-- Claim C9: the payload-supplied `auth_headers` value cannot influence
the response once a user_id is resolvable.  Line 94 resets
`auth_headers_str` to None before the branch at line 97 that would use
it, so the client is only ever built from the preferences-store blob;
the payload value is read only by the identity gate at line 80, which a
truthy user_id silences.  Two dict payloads agreeing on `user_id` and
`action` (and so possibly differing arbitrarily in `auth_headers`) with
a resolvable user id produce identical outcomes and effects. -/
theorem C9_auth_headers_ignored (w : World) (fs1 fs2 : List (String × JValue))
    (hu : fs1.lookup "user_id" = fs2.lookup "user_id")
    (ha : fs1.lookup "action" = fs2.lookup "action")
    (ht : truthy (resolveUserId fs1 w.envUserId) = true) :
    main w (JValue.obj fs1) = main w (JValue.obj fs2) := by
  have hu2 : resolveUserId fs2 w.envUserId = resolveUserId fs1 w.envUserId := by
    unfold resolveUserId; rw [hu]
  simp only [main, ha, hu2]
  simp [ht]

/-- Witness for C9: payloads differing in the presence of a (would-be)
`auth_headers` value. -/
theorem C9_auth_headers_ignored_witness :
    main w0 (JValue.obj
      [("user_id", JValue.str "u"), ("auth_headers", JValue.str "AAA"),
       ("action", JValue.str "get_home")]) =
    main w0 (JValue.obj
      [("user_id", JValue.str "u"), ("action", JValue.str "get_home")]) :=
  C9_auth_headers_ignored w0
    [("user_id", JValue.str "u"), ("auth_headers", JValue.str "AAA"),
     ("action", JValue.str "get_home")]
    [("user_id", JValue.str "u"), ("action", JValue.str "get_home")]
    rfl rfl rfl

/-- Claim C4 counterexample.  With a user id and a preferences fetch that
raises an AppwriteException carrying HTTP code 404, main.py:122 returns
`e.code` (404) as the status — not the 500 the claim demands, and not in
the claimed status set 200/400/401/500. -/
theorem C4_counterexample :
    (main w404 (JValue.obj [("action", .str "get_home"), ("user_id", .str "u1")])).fst =
      Outcome.response
        { status := 404, success := false,
          error := some "Could not retrieve user settings: User not found" } ∧
    (respStatus (main w404 (JValue.obj [("action", .str "get_home"), ("user_id", .str "u1")])).fst ≠ 500 ∧
     ¬ (respStatus (main w404 (JValue.obj [("action", .str "get_home"), ("user_id", .str "u1")])).fst = 200 ∨
        respStatus (main w404 (JValue.obj [("action", .str "get_home"), ("user_id", .str "u1")])).fst = 400 ∨
        respStatus (main w404 (JValue.obj [("action", .str "get_home"), ("user_id", .str "u1")])).fst = 401 ∨
        respStatus (main w404 (JValue.obj [("action", .str "get_home"), ("user_id", .str "u1")])).fst = 500)) :=
  ⟨rfl, by decide, by decide⟩

/-- Claim C4 (amended): when the preferences fetch for a resolvable
user_id fails (with the request carrying a truthy action), the function
returns 500 for a generic exception and for an AppwriteException whose
code is below 400, but for an AppwriteException with code ≥ 400 it
returns that code as the status — so statuses outside 200/400/401/500
(e.g. 404) are possible. -/
theorem C4_prefs_failure (w : World) (fs : List (String × JValue)) (err : PrefsError)
    (hact : truthy ((fs.lookup "action").getD JValue.null) = true)
    (huid : truthy (resolveUserId fs w.envUserId) = true)
    (hp : w.getPrefs (resolveUserId fs w.envUserId) = Except.error err) :
    (main w (JValue.obj fs)).fst = Outcome.response (prefsErrResp err) := by
  have h0 : truthy JValue.null = false := rfl
  rcases Bool.eq_false_or_eq_true
      (pyEqStr ((fs.lookup "action").getD JValue.null) "test_connection") with htc | htc <;>
    cases err <;>
      simp [main, afterIdentity, hact, huid, hp, h0, htc, prefsErrResp]

/-- Witness for C4 (amended): the 404 AppwriteException world. -/
theorem C4_prefs_failure_witness :
    (main w404 (JValue.obj [("action", .str "get_recommendations"), ("user_id", .str "u2")])).fst =
      Outcome.response (prefsErrResp (.appwrite "User not found" 404)) :=
  C4_prefs_failure w404 [("action", .str "get_recommendations"), ("user_id", .str "u2")]
    (.appwrite "User not found" 404) rfl rfl rfl

/-- Claim C5 counterexample.  A request whose action is `get_home`, with
no resolvable user_id but with a truthy `auth_headers` value in the
payload, slips past the identity gate (main.py:80 requires BOTH to be
missing) and ends at main.py:133-139 with a 400 `YT_SETUP_REQUIRED`
response — not the 401 missing-identity error the claim demands for
every such request. -/
theorem C5_counterexample :
    (main w0 (JValue.obj [("action", .str "get_home"), ("auth_headers", .str "x")])).fst =
      Outcome.response
        { status := 400, success := false,
          error := some "YouTube Music not configured. No authentication headers available.",
          code := some "YT_SETUP_REQUIRED" } ∧
    respStatus (main w0 (JValue.obj [("action", .str "get_home"), ("auth_headers", .str "x")])).fst ≠ 401 :=
  ⟨rfl, by decide⟩

/-- Claim C5 (amended): for a request whose action is not
`test_connection`, with no resolvable user_id AND no truthy
`auth_headers` in the payload, the function returns 401 with the
missing-identity error.  (With truthy payload auth_headers but no
user_id, the gate is skipped and the request instead ends in a 400
`YT_SETUP_REQUIRED` response, because line 94 discards the payload
headers.) -/
theorem C5_missing_identity (w : World) (fs : List (String × JValue))
    (hntc : pyEqStr ((fs.lookup "action").getD JValue.null) "test_connection" = false)
    (huid : truthy (resolveUserId fs w.envUserId) = false)
    (hauth : truthy ((fs.lookup "auth_headers").getD JValue.null) = false) :
    (main w (JValue.obj fs)).fst =
      Outcome.response
        { status := 401, success := false,
          error := some "User authentication required" } := by
  simp [main, hntc, huid, hauth]

/-- Witness for C5 (amended): action `get_home`, empty environment. -/
theorem C5_missing_identity_witness :
    (main w0 (JValue.obj [("action", JValue.str "get_home")])).fst =
      Outcome.response
        { status := 401, success := false,
          error := some "User authentication required" } :=
  C5_missing_identity w0 [("action", JValue.str "get_home")] rfl rfl rfl

/-- Claim C6: a request with a resolvable user_id and a truthy action,
whose preference record (successfully fetched) has no value under the
fixed key `ytmusic_headers`, is answered with 400 and code
`YT_SETUP_REQUIRED` (main.py:111-117). -/
theorem C6_setup_required (w : World) (fs : List (String × JValue))
    (user_prefs : List (String × JValue))
    (hact : truthy ((fs.lookup "action").getD JValue.null) = true)
    (huid : truthy (resolveUserId fs w.envUserId) = true)
    (hp : w.getPrefs (resolveUserId fs w.envUserId) = Except.ok user_prefs)
    (hk : user_prefs.lookup YT_HEADERS_PREF_KEY = none) :
    (main w (JValue.obj fs)).fst =
      Outcome.response
        { status := 400, success := false,
          error := some "YouTube Music not configured. Please set up in app settings.",
          code := some "YT_SETUP_REQUIRED" } := by
  have h0 : truthy JValue.null = false := rfl
  rcases Bool.eq_false_or_eq_true
      (pyEqStr ((fs.lookup "action").getD JValue.null) "test_connection") with htc | htc <;>
    simp [main, afterIdentity, hact, huid, hp, hk, h0, htc]

/-- Witness for C6: user u1 with an empty preference record. -/
theorem C6_setup_required_witness :
    (main wEmptyPrefs (JValue.obj [("action", .str "get_home"), ("user_id", .str "u1")])).fst =
      Outcome.response
        { status := 400, success := false,
          error := some "YouTube Music not configured. Please set up in app settings.",
          code := some "YT_SETUP_REQUIRED" } :=
  C6_setup_required wEmptyPrefs [("action", .str "get_home"), ("user_id", .str "u1")] []
    rfl rfl rfl rfl

/-- Claim C7: a `test_connection` request with no resolvable user_id and
no truthy payload auth_headers takes the shortcut at main.py:126-132: a
success response (success true, requires_setup true, default status 200),
with an empty effect list — the preferences store is never contacted and
no YTMusic client is constructed, whatever the environment would answer. -/
theorem C7_test_connection_shortcut (w : World) (fs : List (String × JValue))
    (hact : (fs.lookup "action").getD JValue.null = JValue.str "test_connection")
    (huid : truthy (resolveUserId fs w.envUserId) = false)
    (_hauth : truthy ((fs.lookup "auth_headers").getD JValue.null) = false) :
    main w (JValue.obj fs) =
      (Outcome.response
        { success := true,
          message := some "Connection successful but no auth headers available",
          requires_setup := some true }, []) := by
  have h0 : truthy JValue.null = false := rfl
  have h1 : truthy (JValue.str "test_connection") = true := rfl
  have h2 : pyEqStr (JValue.str "test_connection") "test_connection" = true := rfl
  simp [main, afterIdentity, hact, huid, h0, h1, h2]

/-- Witness for C7: payload with only the action, in an environment whose
preferences fetch and client calls would all fail. -/
theorem C7_test_connection_shortcut_witness :
    main w0 (JValue.obj [("action", JValue.str "test_connection")]) =
      (Outcome.response
        { success := true,
          message := some "Connection successful but no auth headers available",
          requires_setup := some true }, []) :=
  C7_test_connection_shortcut w0 [("action", JValue.str "test_connection")] rfl rfl rfl

/-- Witness for C10: the JSON array payload `[]`. -/
theorem C10_nondict_uncaught_witness :
    isDict (JValue.arr []) = false ∧
    main w0 (JValue.arr []) =
      (Outcome.uncaught ("AttributeError: \x27" ++ pyTypeName (JValue.arr [])
        ++ "\x27 object has no attribute \x27get\x27"), []) :=
  ⟨rfl, C10_nondict_uncaught w0 (JValue.arr []) rfl⟩

end YTM
